import Mathlib

/-!
Shallow embedding of `src/module/index.js` (consume-destination-scp-cf).

The module chains three network steps: an OAuth client-credentials token
fetch (`getToken`), a destination-configuration lookup (`getDestination`),
and a proxied call against the destination's URL (`callDestination`),
sequenced by the entry point `doItNow` after synchronous validation.

Each JavaScript network step is split into a pure *request builder*
(the options object handed to the `request` transport) and a pure
*callback* mapping the transport's `(error, response, data)` outcome to
the settlement of the promise the step returns.  The transport itself is
external (the `request` npm package), so theorems quantify over its
outcome.
-/

namespace ConsumeDestination

/-- A JavaScript object payload (`oOptions.payload`).  JS objects are
always truthy, so truthiness of `payload` coincides with presence
(`Option.isSome`) once it is typed as an object, as the JSDoc does. -/
structure Payload where
  data : String
deriving DecidableEq, Repr

/-- Truthiness of an optional JS string: `undefined`/`null` and the empty
string are falsy, every other string is truthy. -/
def jsTruthyStr : Option String → Bool
  | none => false
  | some s => s ≠ ""

/-- Modelled from the spec: the `http-methods-enum` npm dependency is not
part of this repository.  Per the spec's data model and the JSDoc on
`doItNow`, its default export enumerates exactly
GET, POST, PUT, PATCH, DELETE, HEAD, OPTIONS (keys equal to values). -/
def httpMethodsEnumDefault : List String :=
  ["GET", "POST", "PUT", "PATCH", "DELETE", "HEAD", "OPTIONS"]

/-- Modelled from the spec: named member `POST` of `http-methods-enum`. -/
def httpMethodsEnum.POST : String := "POST"

/-- Modelled from the spec: named member `PUT` of `http-methods-enum`. -/
def httpMethodsEnum.PUT : String := "PUT"

/-- Modelled from the spec: named member `PATCH` of `http-methods-enum`. -/
def httpMethodsEnum.PATCH : String := "PATCH"

/-- `oOptions` accepted by `doItNow` (`CallOptions` in the spec).
`destinationInstance` and `destinationName` are optional strings so that
the JS falsy check (`undefined`, `null`, `''`) is expressible. -/
structure CallOptions where
  url : Option String
  destinationInstance : Option String
  destinationName : Option String
  httpMethod : String
  payload : Option Payload
deriving DecidableEq, Repr

/-- `{ type, value }` entry of `destination.authTokens`. -/
structure AuthToken where
  type : String
  value : String
deriving DecidableEq, Repr

/-- `destination.destinationConfiguration`. -/
structure DestinationConfiguration where
  URL : String
deriving DecidableEq, Repr

/-- The Destination record returned by the destination service.
`authTokens` is `none` when the property is absent (`undefined`). -/
structure Destination where
  destinationConfiguration : DestinationConfiguration
  authTokens : Option (List AuthToken)
deriving DecidableEq, Repr

/-- The `oOptions` object `callDestination` hands to `request`:
`method`, `url`, optional `headers` map, and the `payload` property set
only for POST/PUT/PATCH with a payload present. -/
structure RequestOptions where
  method : String
  url : String
  headers : Option (List (String × String))
  payload : Option Payload
deriving DecidableEq, Repr

/-- The `oParameters` object passed to `callDestination` by `doItNow`. -/
structure CallParameters where
  url : Option String
  destination : Destination
  httpMethod : String
  payload : Option Payload
deriving DecidableEq, Repr

/-- `isPostPutPatch` from `src/module/index.js` lines 89-91:
`sMethod == httpMethodsEnum.POST || sMethod == httpMethodsEnum.PUT ||
sMethod == httpMethodsEnum.PATCH`. -/
def isPostPutPatch (sMethod : String) : Bool :=
  sMethod == httpMethodsEnum.POST || sMethod == httpMethodsEnum.PUT
    || sMethod == httpMethodsEnum.PATCH

/-- The options object built by `callDestination` (lines 51-71) before the
transport is invoked: base url from the destination configuration, the
caller path appended when truthy, the `Authorization` header from the
first auth token when present, and the payload only for POST/PUT/PATCH. -/
def buildDestinationRequest (oParameters : CallParameters) : RequestOptions :=
  let oDestination := oParameters.destination
  let baseUrl := oDestination.destinationConfiguration.URL
  let url :=
    if jsTruthyStr oParameters.url then
      baseUrl ++ oParameters.url.getD ""
    else baseUrl
  let headers :=
    match oDestination.authTokens with
    | some (oToken :: _) =>
        some [("Authorization", oToken.type ++ " " ++ oToken.value)]
    | _ => none
  let payload :=
    if oParameters.payload.isSome && isPostPutPatch oParameters.httpMethod then
      oParameters.payload
    else none
  { method := oParameters.httpMethod, url := url, headers := headers
    payload := payload }

/-- The `response` object the transport passes to a callback; only
`statusCode` is consulted by the source. -/
structure HttpResponse where
  statusCode : Nat
deriving DecidableEq, Repr

/-- Outcome of one `request(options, callback)` transport invocation:
either a truthy `error`, or a response together with the body `data`. -/
inductive TransportOutcome where
  | failure (error : String)
  | success (response : HttpResponse) (data : String)
deriving DecidableEq, Repr

/-- A promise rejection reason: the transport's error object, one of the
source's descriptive strings, or a runtime exception thrown in an async
function body (which rejects the promise that function returns). -/
inductive RejectReason where
  | transport (error : String)
  | message (s : String)
  | exception (e : String)
deriving DecidableEq, Repr

/-- Settlement of a step's promise.  `pending` marks the case where the
transport callback raises an uncaught exception (the callback runs on a
later tick, outside the promise executor), so the promise never settles. -/
inductive PromiseResult (α : Type) where
  | resolved (value : α)
  | rejected (reason : RejectReason)
  | pending
deriving DecidableEq, Repr

/-- The transport callback of `callDestination` (lines 73-81): reject on a
truthy `error`, otherwise resolve with the raw `data` — the status code is
never inspected. -/
def callDestinationCallback (outcome : TransportOutcome) : PromiseResult String :=
  match outcome with
  | .failure error => .rejected (.transport error)
  | .success _ data => .resolved data

/-- Service-binding credentials resolved by `cfenv ... .getService`. -/
structure Credentials where
  url : String
  uri : String
  clientid : String
  clientsecret : String
deriving DecidableEq, Repr

/-- The runtime environment: resolves binding credentials for a service
instance name (`cfenv.getAppEnv(...).getService`). -/
def Env : Type := String → Credentials

/-- The base64 alphabet, indexed 0-63. -/
def b64Alphabet : List Char :=
  String.toList "ABCDEFGHIJKLMNOPQRSTUVWXYZabcdefghijklmnopqrstuvwxyz0123456789+/"

/-- The base64 digit for a 6-bit value. -/
def b64Char (n : Nat) : Char :=
  b64Alphabet.getD n 'A'

/-- The 6-bit value of a base64 digit, `none` off the alphabet. -/
def b64Val (c : Char) : Option Nat :=
  b64Alphabet.findIdx? (· == c)

/-- Standard base64 of a byte sequence (values < 256), with `=` padding:
the behaviour of `Buffer.from(s).toString('base64')` on the bytes of `s`. -/
def base64EncodeBytes : List Nat → List Char
  | [] => []
  | [a] =>
      [b64Char (a / 4), b64Char (a % 4 * 16), '=', '=']
  | [a, b] =>
      [b64Char (a / 4), b64Char (a % 4 * 16 + b / 16), b64Char (b % 16 * 4), '=']
  | a :: b :: c :: rest =>
      b64Char (a / 4) :: b64Char (a % 4 * 16 + b / 16)
        :: b64Char (b % 16 * 4 + c / 64) :: b64Char (c % 64)
        :: base64EncodeBytes rest

/-- Standard base64 decoding back to bytes: the specification the encoder
is checked against (decoding an encoding recovers the bytes). -/
def base64DecodeChars : List Char → Option (List Nat)
  | [] => some []
  | c1 :: c2 :: c3 :: c4 :: rest =>
    match b64Val c1, b64Val c2 with
    | some v1, some v2 =>
      if c3 == '=' then
        if c4 == '=' && rest.isEmpty && v2 % 16 == 0 then
          some [v1 * 4 + v2 / 16]
        else none
      else
        match b64Val c3 with
        | some v3 =>
          if c4 == '=' then
            if rest.isEmpty && v3 % 4 == 0 then
              some [v1 * 4 + v2 / 16, v2 % 16 * 16 + v3 / 4]
            else none
          else
            match b64Val c4, base64DecodeChars rest with
            | some v4, some tail =>
                some ((v1 * 4 + v2 / 16) :: (v2 % 16 * 16 + v3 / 4)
                  :: (v3 % 4 * 64 + v4) :: tail)
            | _, _ => none
        | none => none
    | _, _ => none
  | _ => none

/-- UTF-8 bytes of a string, as naturals (`Buffer.from(s)`). -/
def strBytes (s : String) : List Nat :=
  s.toUTF8.toList.map (·.toNat)

/-- `Buffer.from(s).toString('base64')`. -/
def base64 (s : String) : String :=
  String.mk (base64EncodeBytes (strBytes s))

/-- The options object `getToken` (lines 127-144) hands to `request`:
POST to `{credentials.url}/oauth/token`, Basic auth from
`clientid:clientsecret`, form-encoded body with `client_id` and
`grant_type`. -/
structure TokenRequest where
  url : String
  method : String
  authorizationHeader : String
  contentTypeHeader : String
  formClientId : String
  formGrantType : String
deriving DecidableEq, Repr

/-- `getToken`'s request construction: the credentials are resolved from
the environment for the instance name, inside the step itself. -/
def buildTokenRequest (env : Env) (sDestinationInstance : String) : TokenRequest :=
  let credentials := env sDestinationInstance
  let sCredentials := credentials.clientid ++ ":" ++ credentials.clientsecret
  { url := credentials.url ++ "/oauth/token"
    method := "POST"
    authorizationHeader := "Basic " ++ base64 sCredentials
    contentTypeHeader := "application/x-www-form-urlencoded"
    formClientId := credentials.clientid
    formGrantType := "client_credentials" }

/-- The options object `getDestination` (lines 99-109) hands to `request`:
GET (the transport's default method — none is set in the source) to
`{credentials.uri}/destination-configuration/v1/destinations/{name}` with
a Bearer token.  The service binding is resolved again from the
environment inside this step, independently of `getToken`'s lookup. -/
structure DestinationFetchRequest where
  url : String
  method : String
  authorizationHeader : String
deriving DecidableEq, Repr

/-- `getDestination`'s request construction. -/
def buildDestinationFetchRequest (env : Env) (sDestinationInstance : String)
    (sToken : String) (sDestinationName : String) : DestinationFetchRequest :=
  let oDestinationService := env sDestinationInstance
  { url := oDestinationService.uri ++ "/destination-configuration/v1/destinations/"
      ++ sDestinationName
    method := "GET"
    authorizationHeader := "Bearer " ++ sToken }

/-- A parsed JSON value; numbers keep their source lexeme (no claim
inspects a numeric value). -/
inductive Json where
  | null
  | bool (b : Bool)
  | num (lexeme : String)
  | str (s : String)
  | arr (elems : List Json)
  | obj (members : List (String × Json))

/-- JSON whitespace. -/
def isJsonWs (c : Char) : Bool :=
  c == ' ' || c == '\t' || c == '\n' || c == '\r'

/-- Drop leading JSON whitespace. -/
def skipWs : List Char → List Char
  | [] => []
  | c :: cs => if isJsonWs c then skipWs cs else c :: cs

/-- Value of a hexadecimal digit, if any (by code point: digits 48-57,
lowercase 97-102, uppercase 65-70). -/
def hexVal (c : Char) : Option Nat :=
  let n := c.toNat
  if 48 ≤ n ∧ n ≤ 57 then some (n - 48)
  else if 97 ≤ n ∧ n ≤ 102 then some (n - 87)
  else if 65 ≤ n ∧ n ≤ 70 then some (n - 55)
  else none

/-- Body of a JSON string after the opening quote; returns the decoded
characters and the input after the closing quote. -/
def parseStringBody : Nat → List Char → Option (List Char × List Char)
  | 0, _ => none
  | _ + 1, [] => none
  | fuel + 1, c :: cs =>
    if c == '"' then some ([], cs)
    else if c == '\\' then
      match cs with
      | [] => none
      | e :: cs' =>
        let simpleEscape : Option Char :=
          if e == '"' then some '"'
          else if e == '\\' then some '\\'
          else if e == '/' then some '/'
          else if e == 'b' then some (Char.ofNat 8)
          else if e == 'f' then some (Char.ofNat 12)
          else if e == 'n' then some '\n'
          else if e == 'r' then some '\r'
          else if e == 't' then some '\t'
          else none
        match simpleEscape with
        | some d =>
          match parseStringBody fuel cs' with
          | some (tail, rest) => some (d :: tail, rest)
          | none => none
        | none =>
          if e == 'u' then
            match cs' with
            | h1 :: h2 :: h3 :: h4 :: cs'' =>
              match hexVal h1, hexVal h2, hexVal h3, hexVal h4 with
              | some v1, some v2, some v3, some v4 =>
                let code := ((v1 * 16 + v2) * 16 + v3) * 16 + v4
                match parseStringBody fuel cs'' with
                | some (tail, rest) =>
                    some ((if code.isValidChar then Char.ofNat code else '?') :: tail, rest)
                | none => none
              | _, _, _, _ => none
            | _ => none
          else none
    else if c.toNat < 32 then none
    else
      match parseStringBody fuel cs with
      | some (tail, rest) => some (c :: tail, rest)
      | none => none

/-- Longest prefix of decimal digits, with the remainder. -/
def takeDigits : List Char → List Char × List Char
  | [] => ([], [])
  | c :: cs =>
    if '0' ≤ c && c ≤ '9' then
      let (ds, rest) := takeDigits cs
      (c :: ds, rest)
    else ([], c :: cs)

/-- The fractional part of a JSON number lexeme (empty when absent),
with the remainder; `none` when a `.` is not followed by a digit. -/
def parseFracPart (cs : List Char) : Option (List Char × List Char) :=
  match cs with
  | '.' :: rest =>
    match takeDigits rest with
    | ([], _) => none
    | (ds, rest') => some ('.' :: ds, rest')
  | _ => some ([], cs)

/-- The exponent part of a JSON number lexeme (empty when absent), with
the remainder; `none` when an `e`/`E` is not followed by digits. -/
def parseExpPart (cs : List Char) : Option (List Char × List Char) :=
  match cs with
  | e :: rest =>
    if e == 'e' || e == 'E' then
      let (expSign, rest₁) :=
        match rest with
        | '+' :: r => (['+'], r)
        | '-' :: r => (['-'], r)
        | _ => (([] : List Char), rest)
      match takeDigits rest₁ with
      | ([], _) => none
      | (expDigits, rest₂) => some (e :: expSign ++ expDigits, rest₂)
    else some ([], cs)
  | [] => some ([], cs)

/-- A JSON number lexeme (`-?int(.frac)?((e|E)(+|-)?exp)?`) with the
remainder, or `none` when no well-formed number starts here. -/
def parseNumber (cs : List Char) : Option (List Char × List Char) :=
  let (sign, cs₁) :=
    match cs with
    | '-' :: rest => (['-'], rest)
    | _ => (([] : List Char), cs)
  match takeDigits cs₁ with
  | ([], _) => none
  | (intDigits, cs₂) =>
    let intOk :=
      match intDigits with
      | ['0'] => true
      | '0' :: _ => false
      | _ => true
    if !intOk then none else
    match parseFracPart cs₂ with
    | none => none
    | some (fracPart, cs₃) =>
      match parseExpPart cs₃ with
      | none => none
      | some (expPart, cs₄) =>
          some (sign ++ intDigits ++ fracPart ++ expPart, cs₄)

mutual

/-- A JSON value starting at the (whitespace-skipped) input, with the
remainder. -/
def parseValue : Nat → List Char → Option (Json × List Char)
  | 0, _ => none
  | fuel + 1, cs =>
    match cs with
    | [] => none
    | c :: rest =>
      if c == '"' then
        match parseStringBody (fuel + 1) rest with
        | some (chars, rest') => some (.str (String.mk chars), rest')
        | none => none
      else if c == '{' then
        let afterBrace := skipWs rest
        match afterBrace with
        | '}' :: rest' => some (.obj [], rest')
        | _ =>
          match parseMembers fuel afterBrace with
          | some (members, rest') => some (.obj members, rest')
          | none => none
      else if c == '[' then
        let afterBracket := skipWs rest
        match afterBracket with
        | ']' :: rest' => some (.arr [], rest')
        | _ =>
          match parseElements fuel afterBracket with
          | some (elems, rest') => some (.arr elems, rest')
          | none => none
      else if c == 't' then
        match rest with
        | 'r' :: 'u' :: 'e' :: rest' => some (.bool true, rest')
        | _ => none
      else if c == 'f' then
        match rest with
        | 'a' :: 'l' :: 's' :: 'e' :: rest' => some (.bool false, rest')
        | _ => none
      else if c == 'n' then
        match rest with
        | 'u' :: 'l' :: 'l' :: rest' => some (.null, rest')
        | _ => none
      else
        match parseNumber cs with
        | some (lexeme, rest') => some (.num (String.mk lexeme), rest')
        | none => none

/-- The members of a JSON object, positioned at the first key's quote;
consumes through the closing brace. -/
def parseMembers : Nat → List Char → Option (List (String × Json) × List Char)
  | 0, _ => none
  | fuel + 1, cs =>
    match cs with
    | '"' :: rest =>
      match parseStringBody fuel rest with
      | some (keyChars, rest₁) =>
        match skipWs rest₁ with
        | ':' :: rest₂ =>
          match parseValue fuel (skipWs rest₂) with
          | some (value, rest₃) =>
            let entry := (String.mk keyChars, value)
            match skipWs rest₃ with
            | ',' :: rest₄ =>
              match parseMembers fuel (skipWs rest₄) with
              | some (tail, rest₅) => some (entry :: tail, rest₅)
              | none => none
            | '}' :: rest₄ => some ([entry], rest₄)
            | _ => none
          | none => none
        | _ => none
      | none => none
    | _ => none

/-- The elements of a JSON array, positioned at the first element;
consumes through the closing bracket. -/
def parseElements : Nat → List Char → Option (List Json × List Char)
  | 0, _ => none
  | fuel + 1, cs =>
    match parseValue fuel cs with
    | some (value, rest) =>
      match skipWs rest with
      | ',' :: rest₁ =>
        match parseElements fuel (skipWs rest₁) with
        | some (tail, rest₂) => some (value :: tail, rest₂)
        | none => none
      | ']' :: rest₁ => some ([value], rest₁)
      | _ => none
    | none => none

end

/-- `JSON.parse(data)`: `some` of the parsed value, `none` when the call
would throw a `SyntaxError`. -/
def jsonParse (data : String) : Option Json :=
  let cs := skipWs data.toList
  match parseValue (data.length + 1) cs with
  | some (value, rest) => if (skipWs rest).isEmpty then some value else none
  | none => none

/-- JS property access on a parsed JSON value: `some` when an object has
the key (last duplicate wins, as in `JSON.parse`), `none` for `undefined`. -/
def Json.getField (j : Json) (key : String) : Option Json :=
  match j with
  | .obj members => (members.filter (fun kv => kv.1 == key)).getLast?.map (·.2)
  | _ => none

/-- The transport callback of `getToken` (lines 145-154): reject on a
truthy `error`; on status 200 evaluate `JSON.parse(data).access_token`
and resolve with it (`pending` when `JSON.parse` throws: the exception is
uncaught in the transport callback, so the promise never settles);
otherwise reject with the descriptive status-code string. -/
def getTokenCallback (outcome : TransportOutcome) : PromiseResult (Option Json) :=
  match outcome with
  | .failure error => .rejected (.transport error)
  | .success response data =>
    if response.statusCode == 200 then
      match jsonParse data with
      | some parsed => .resolved (parsed.getField "access_token")
      | none => .pending
    else
      .rejected (.message ("Server responded with status code "
        ++ toString response.statusCode ++ " when requesting the JWT token"))

/-- The transport callback of `getDestination` (lines 110-118): reject on
a truthy `error`; on status 200 resolve with `JSON.parse(data)`
(`pending` when the parse throws); otherwise reject with the descriptive
status-code string. -/
def getDestinationCallback (outcome : TransportOutcome) : PromiseResult Json :=
  match outcome with
  | .failure error => .rejected (.transport error)
  | .success response data =>
    if response.statusCode == 200 then
      match jsonParse data with
      | some parsed => .resolved parsed
      | none => .pending
    else
      .rejected (.message ("Server responded with status code "
        ++ toString response.statusCode
        ++ " when requesting the destination from destination service"))

mutual

/-- JS string coercion of a parsed JSON value, as in a template literal. -/
def jsToString : Json → String
  | .null => "null"
  | .bool b => if b then "true" else "false"
  | .num lexeme => lexeme
  | .str s => s
  | .arr elems => String.intercalate "," (jsArrayElemStrings elems)
  | .obj _ => "[object Object]"

/-- Element strings of `Array.prototype.join`: `null` renders empty. -/
def jsArrayElemStrings : List Json → List String
  | [] => []
  | .null :: rest => "" :: jsArrayElemStrings rest
  | j :: rest => jsToString j :: jsArrayElemStrings rest

end

/-- JS string coercion of a possibly-`undefined` value. -/
def jsTemplate : Option Json → String
  | none => "undefined"
  | some j => jsToString j

/-- Whether a JSON number lexeme denotes zero: its mantissa digits are
all `0` (sign, decimal point and exponent aside). -/
def jsNumLexemeIsZero (lexeme : String) : Bool :=
  (lexeme.toList.takeWhile fun c => c != 'e' && c != 'E').all
    fun c => c == '0' || c == '.' || c == '-'

/-- JS truthiness of a parsed JSON value. -/
def jsTruthy : Json → Bool
  | .null => false
  | .bool b => b
  | .num lexeme => !jsNumLexemeIsZero lexeme
  | .str s => s ≠ ""
  | .arr _ => true
  | .obj _ => true

/-- JS `value[0]`: first element of an array, one-character string of a
nonempty string, member `"0"` of an object; `undefined` otherwise. -/
def jsIndex0 : Json → Option Json
  | .arr (x :: _) => some x
  | .str s =>
    match s.toList with
    | c :: _ => some (.str (String.mk [c]))
    | [] => none
  | .obj members => (members.filter (fun kv => kv.1 == "0")).getLast?.map (·.2)
  | _ => none

/-- JS `${j.key}`: the member's string coercion, `"undefined"` when the
property is absent or the value is not an object. -/
def jsFieldToString (j : Json) (key : String) : String :=
  match j.getField key with
  | some v => jsToString v
  | none => "undefined"

/-- How `callDestination` reads the `Destination` record out of the JSON
that `getDestination` resolved: `none` when evaluating
`oDestination.destinationConfiguration.URL` throws a `TypeError`
(`destinationConfiguration` absent or `null`), which rejects the async
function's promise.  Otherwise `URL` is the JS string coercion of the
`URL` member, and the auth-token list carries
`oDestination.authTokens[0]` exactly when `authTokens` is truthy and its
`[0]` is truthy (the only entry `callDestination` reads). -/
def destinationOfJson (j : Json) : Option Destination :=
  match j.getField "destinationConfiguration" with
  | none => none
  | some .null => none
  | some cfg =>
    let firstToken : Option Json :=
      match j.getField "authTokens" with
      | some v => if jsTruthy v then jsIndex0 v else none
      | none => none
    let authTokens : Option (List AuthToken) :=
      match firstToken with
      | some tok =>
        if jsTruthy tok then
          some [{ type := jsFieldToString tok "type"
                  value := jsFieldToString tok "value" }]
        else none
      | none => none
    some { destinationConfiguration := { URL := jsFieldToString cfg "URL" }
           authTokens := authTokens }

/-- The three transport outcomes of one `doItNow` run: what the network
answers for the token fetch, destination fetch and proxied call each, if
that request is ever issued. -/
structure Oracle where
  tokenOutcome : TransportOutcome
  destinationOutcome : TransportOutcome
  callOutcome : TransportOutcome
deriving DecidableEq, Repr

/-- One outbound `request(...)` invocation, in issue order. -/
inductive NetworkRequest where
  | token (r : TokenRequest)
  | destinationFetch (r : DestinationFetchRequest)
  | proxied (r : RequestOptions)
deriving DecidableEq, Repr

/-- Settlement of the promise `doItNow` returns.  `thrown` is the
synchronous validation throw (an async function surfaces it as an
immediately rejected promise, before any other work). -/
inductive DoItNowOutcome where
  | thrown (message : String)
  | rejected (reason : RejectReason)
  | resolved (body : String)
  | pending
deriving DecidableEq, Repr

/-- `doItNow` (lines 14-40): validation, then the token fetch, the
destination fetch, and the proxied call, each step consuming the
previous step's resolution.  Returns the settlement together with the
list of network requests issued, in order.  The validation message for
an unknown method appends the stringified dependency enum; its exact
`JSON.stringify` rendering is not modelled, only the method list. -/
def doItNow (env : Env) (oOptions : CallOptions) (oracle : Oracle) :
    DoItNowOutcome × List NetworkRequest :=
  if ¬ httpMethodsEnumDefault.contains oOptions.httpMethod then
    (.thrown ("Unknown HTTP method: " ++ oOptions.httpMethod
      ++ ". Allowed methods: " ++ String.intercalate "," httpMethodsEnumDefault), [])
  else if ¬ jsTruthyStr oOptions.destinationInstance then
    (.thrown "Invalid destination service instance", [])
  else if ¬ jsTruthyStr oOptions.destinationName then
    (.thrown "Invalid destination name", [])
  else
    let inst := oOptions.destinationInstance.getD ""
    let name := oOptions.destinationName.getD ""
    let tokenReq := buildTokenRequest env inst
    match getTokenCallback oracle.tokenOutcome with
    | .rejected r => (.rejected r, [.token tokenReq])
    | .pending => (.pending, [.token tokenReq])
    | .resolved tokenValue =>
      let sToken := jsTemplate tokenValue
      let destReq := buildDestinationFetchRequest env inst sToken name
      match getDestinationCallback oracle.destinationOutcome with
      | .rejected r => (.rejected r, [.token tokenReq, .destinationFetch destReq])
      | .pending => (.pending, [.token tokenReq, .destinationFetch destReq])
      | .resolved destJson =>
        match destinationOfJson destJson with
        | none =>
            (.rejected (.exception "TypeError"),
              [.token tokenReq, .destinationFetch destReq])
        | some oDestination =>
          let callReq := buildDestinationRequest
            { url := oOptions.url, destination := oDestination
              httpMethod := oOptions.httpMethod, payload := oOptions.payload }
          let requests := [.token tokenReq, .destinationFetch destReq,
            .proxied callReq]
          match callDestinationCallback oracle.callOutcome with
          | .resolved data => (.resolved data, requests)
          | .rejected r => (.rejected r, requests)
          | .pending => (.pending, requests)

/-! ### Helper lemmas -/

theorem b64Val_b64Char : ∀ v : Nat, v < 64 → b64Val (b64Char v) = some v := by
  decide

theorem b64Char_ne_pad : ∀ v : Nat, v < 64 → (b64Char v == '=') = false := by
  decide

/-- Decoding a base64 encoding of bytes recovers exactly those bytes. -/
theorem base64_decode_encode : ∀ bs : List Nat, (∀ x ∈ bs, x < 256) →
    base64DecodeChars (base64EncodeBytes bs) = some bs := by
  intro bs
  induction bs using base64EncodeBytes.induct with
  | case1 =>
    intro _
    decide
  | case2 a =>
    intro h
    have ha : a < 256 := h a (by simp)
    simp only [base64EncodeBytes, base64DecodeChars]
    rw [b64Val_b64Char (a / 4) (by omega), b64Val_b64Char (a % 4 * 16) (by omega)]
    simp [Nat.mul_mod_left]
    omega
  | case3 a b =>
    intro h
    have ha : a < 256 := h a (by simp)
    have hb : b < 256 := h b (by simp)
    simp only [base64EncodeBytes, base64DecodeChars]
    rw [b64Val_b64Char (a / 4) (by omega),
      b64Val_b64Char (a % 4 * 16 + b / 16) (by omega),
      b64Char_ne_pad (b % 16 * 4) (by omega),
      b64Val_b64Char (b % 16 * 4) (by omega)]
    simp [Nat.mul_mod_left]
    omega
  | case4 a b c rest ih =>
    intro h
    have ha : a < 256 := h a (by simp)
    have hb : b < 256 := h b (by simp)
    have hc : c < 256 := h c (by simp)
    have hrest : ∀ x ∈ rest, x < 256 := fun x hx => h x (by simp [hx])
    simp only [base64EncodeBytes, base64DecodeChars]
    rw [b64Val_b64Char (a / 4) (by omega),
      b64Val_b64Char (a % 4 * 16 + b / 16) (by omega),
      b64Char_ne_pad (b % 16 * 4 + c / 64) (by omega),
      b64Val_b64Char (b % 16 * 4 + c / 64) (by omega),
      b64Char_ne_pad (c % 64) (by omega),
      b64Val_b64Char (c % 64) (by omega),
      ih hrest]
    simp only [Bool.false_eq_true, if_false, Option.some.injEq, List.cons.injEq]
    refine ⟨by omega, by omega, by omega, trivial⟩

/-- Every UTF-8 byte of a string is below 256. -/
theorem strBytes_lt (s : String) : ∀ x ∈ strBytes s, x < 256 := by
  intro x hx
  simp only [strBytes, List.mem_map] at hx
  obtain ⟨b, _, rfl⟩ := hx
  exact b.toNat_lt

/-- `isPostPutPatch` agrees with membership in {POST, PUT, PATCH}. -/
theorem isPostPutPatch_iff (m : String) :
    isPostPutPatch m = true ↔ m = "POST" ∨ m = "PUT" ∨ m = "PATCH" := by
  simp [isPostPutPatch, httpMethodsEnum.POST, httpMethodsEnum.PUT,
    httpMethodsEnum.PATCH, or_assoc]

/-! ### Claim theorems -/

/-- C1: for every invocation of the destination caller with a payload
supplied, the payload lands on the outgoing request options exactly when
`isPostPutPatch` holds of the method, and `isPostPutPatch` returns true
exactly for POST, PUT and PATCH. -/
theorem C1_payload_attached_iff_post_put_patch
    (oParameters : CallParameters) (p : Payload)
    (hp : oParameters.payload = some p) :
    (∀ m, isPostPutPatch m = true ↔ m = "POST" ∨ m = "PUT" ∨ m = "PATCH") ∧
    ((buildDestinationRequest oParameters).payload = some p ↔
      isPostPutPatch oParameters.httpMethod = true) := by
  refine ⟨isPostPutPatch_iff, ?_⟩
  simp only [buildDestinationRequest, hp, Option.isSome_some, Bool.true_and]
  by_cases hm : isPostPutPatch oParameters.httpMethod = true <;>
    simp [hm]

/-- C1 witness: a POST with a payload carries it on the request options. -/
theorem C1_payload_attached_iff_post_put_patch_witness :
    ((CallParameters.mk none
        (Destination.mk (DestinationConfiguration.mk "https://api") none)
        "POST" (some (Payload.mk "body"))).payload = some (Payload.mk "body")) ∧
    ((∀ m, isPostPutPatch m = true ↔ m = "POST" ∨ m = "PUT" ∨ m = "PATCH") ∧
      ((buildDestinationRequest (CallParameters.mk none
          (Destination.mk (DestinationConfiguration.mk "https://api") none)
          "POST" (some (Payload.mk "body")))).payload = some (Payload.mk "body") ↔
        isPostPutPatch "POST" = true)) :=
  ⟨rfl, C1_payload_attached_iff_post_put_patch _ (Payload.mk "body") rfl⟩

/-- C2: for options whose method is outside the recognized enum, or whose
instance or destination name is falsy, `doItNow` throws a validation
error synchronously and issues no network request at all, whatever the
environment and however the network would have answered. -/
theorem C2_validation_throws_before_network
    (env : Env) (oOptions : CallOptions) (oracle : Oracle)
    (h : oOptions.httpMethod ∉
        (["GET", "POST", "PUT", "PATCH", "DELETE", "HEAD", "OPTIONS"] : List String)
      ∨ (oOptions.destinationInstance = none ∨ oOptions.destinationInstance = some "")
      ∨ (oOptions.destinationName = none ∨ oOptions.destinationName = some "")) :
    (∃ msg, (doItNow env oOptions oracle).1 = .thrown msg) ∧
    (doItNow env oOptions oracle).2 = [] := by
  rcases h with h | h | h
  · have hc : oOptions.httpMethod ∉ httpMethodsEnumDefault := by
      simpa [httpMethodsEnumDefault] using h
    rw [doItNow, if_pos (by simp [hc])]
    exact ⟨⟨_, rfl⟩, rfl⟩
  · have hfalsy : jsTruthyStr oOptions.destinationInstance = false := by
      rcases h with h | h <;> simp [h, jsTruthyStr]
    rw [doItNow]
    by_cases hm : oOptions.httpMethod ∈ httpMethodsEnumDefault
    · rw [if_neg (by simp [hm]), if_pos (by simp [hfalsy])]
      exact ⟨⟨_, rfl⟩, rfl⟩
    · rw [if_pos (by simp [hm])]
      exact ⟨⟨_, rfl⟩, rfl⟩
  · have hfalsy : jsTruthyStr oOptions.destinationName = false := by
      rcases h with h | h <;> simp [h, jsTruthyStr]
    rw [doItNow]
    by_cases hm : oOptions.httpMethod ∈ httpMethodsEnumDefault
    · rw [if_neg (by simp [hm])]
      by_cases hi : jsTruthyStr oOptions.destinationInstance = true
      · rw [if_neg (by simp [hi]), if_pos (by simp [hfalsy])]
        exact ⟨⟨_, rfl⟩, rfl⟩
      · rw [if_pos (by simpa using hi)]
        exact ⟨⟨_, rfl⟩, rfl⟩
    · rw [if_pos (by simp [hm])]
      exact ⟨⟨_, rfl⟩, rfl⟩

/-- C2 witness: an unknown method `TRACE` throws with zero requests. -/
theorem C2_validation_throws_before_network_witness :
    (("TRACE" : String) ∉
        (["GET", "POST", "PUT", "PATCH", "DELETE", "HEAD", "OPTIONS"] : List String)
      ∨ ((some "inst" : Option String) = none ∨ (some "inst" : Option String) = some "")
      ∨ ((some "dest" : Option String) = none ∨ (some "dest" : Option String) = some "")) ∧
    ((∃ msg, (doItNow (fun _ => Credentials.mk "u" "i" "c" "s")
        (CallOptions.mk none (some "inst") (some "dest") "TRACE" none)
        (Oracle.mk (.failure "e") (.failure "e") (.failure "e"))).1 = .thrown msg) ∧
      (doItNow (fun _ => Credentials.mk "u" "i" "c" "s")
        (CallOptions.mk none (some "inst") (some "dest") "TRACE" none)
        (Oracle.mk (.failure "e") (.failure "e") (.failure "e"))).2 = []) :=
  ⟨Or.inl (by decide),
    C2_validation_throws_before_network _ _ _ (Or.inl (by decide))⟩

/-- C3: the proxied call's callback never inspects the status code: any
transport-level success resolves with the raw body (a 500 included), and
only a transport error rejects, carrying that error. -/
theorem C3_proxied_call_ignores_status
    (response : HttpResponse) (data : String) (error : String) :
    callDestinationCallback (.success response data) = .resolved data ∧
    callDestinationCallback (.success (HttpResponse.mk 500) data) = .resolved data ∧
    callDestinationCallback (.failure error) = .rejected (.transport error) :=
  ⟨rfl, rfl, rfl⟩

/-- C4: a 200 token response whose body parses to JSON with an
`access_token` member resolves the token step with exactly that member's
value. -/
theorem C4_token_resolves_access_token
    (response : HttpResponse) (data : String) (parsed tok : Json)
    (h200 : response.statusCode = 200)
    (hparse : jsonParse data = some parsed)
    (htok : parsed.getField "access_token" = some tok) :
    getTokenCallback (.success response data) = .resolved (some tok) := by
  simp [getTokenCallback, h200, hparse, htok]

/-- C4 witness: body `{"access_token":"tok123"}` yields exactly
`"tok123"`. -/
theorem C4_token_resolves_access_token_witness :
    (HttpResponse.mk 200).statusCode = 200 ∧
    jsonParse "\x7b\"access_token\":\"tok123\"\x7d" =
      some (Json.obj [("access_token", Json.str "tok123")]) ∧
    (Json.obj [("access_token", Json.str "tok123")]).getField "access_token" =
      some (Json.str "tok123") ∧
    getTokenCallback (.success (HttpResponse.mk 200) "\x7b\"access_token\":\"tok123\"\x7d") =
      .resolved (some (Json.str "tok123")) :=
  ⟨rfl, rfl, rfl,
    C4_token_resolves_access_token (HttpResponse.mk 200) _ _ _ rfl rfl rfl⟩

/-- C5: a non-200 token or destination response (without transport error)
rejects with the descriptive string naming the status code, and the body
plays no role in the outcome (it is not parsed). -/
theorem C5_non200_rejects_naming_status
    (response : HttpResponse) (data other : String)
    (h : response.statusCode ≠ 200) :
    getTokenCallback (.success response data) =
      .rejected (.message ("Server responded with status code "
        ++ toString response.statusCode ++ " when requesting the JWT token")) ∧
    getDestinationCallback (.success response data) =
      .rejected (.message ("Server responded with status code "
        ++ toString response.statusCode
        ++ " when requesting the destination from destination service")) ∧
    getTokenCallback (.success response data) =
      getTokenCallback (.success response other) ∧
    getDestinationCallback (.success response data) =
      getDestinationCallback (.success response other) := by
  have hb : (response.statusCode == 200) = false := by simpa using h
  refine ⟨?_, ?_, ?_, ?_⟩ <;> simp [getTokenCallback, getDestinationCallback, hb]

/-- C5 witness: a 401 token response rejects with a message containing
`401`. -/
theorem C5_non200_rejects_naming_status_witness :
    (HttpResponse.mk 401).statusCode ≠ 200 ∧
    getTokenCallback (.success (HttpResponse.mk 401) "body") =
      .rejected (.message
        "Server responded with status code 401 when requesting the JWT token") ∧
    getDestinationCallback (.success (HttpResponse.mk 401) "body") =
      .rejected (.message
        ("Server responded with status code 401"
          ++ " when requesting the destination from destination service")) := by
  have h := C5_non200_rejects_naming_status (HttpResponse.mk 401) "body" "other"
    (by decide)
  exact ⟨by decide, h.1, h.2.1⟩

/-- C6: the proxied request goes to the destination configuration's URL
with the caller path appended (the URL alone when no truthy path is
given), uses the caller's method, and carries
`Authorization: {type} {value}` from the first auth token when one
exists. -/
theorem C6_url_concat_and_auth_header (oParameters : CallParameters) :
    (buildDestinationRequest oParameters).url =
      oParameters.destination.destinationConfiguration.URL
        ++ oParameters.url.getD "" ∧
    (buildDestinationRequest oParameters).method = oParameters.httpMethod ∧
    (∀ (tok : AuthToken) (rest : List AuthToken),
      oParameters.destination.authTokens = some (tok :: rest) →
      (buildDestinationRequest oParameters).headers =
        some [("Authorization", tok.type ++ " " ++ tok.value)]) := by
  refine ⟨?_, rfl, ?_⟩
  · simp only [buildDestinationRequest]
    match hu : oParameters.url with
    | none => simp [jsTruthyStr]
    | some s =>
      by_cases hs : s = "" <;> simp [jsTruthyStr, hs]
  · intro tok rest htok
    simp [buildDestinationRequest, htok]

/-- C6 witness: the spec's example — URL `https://api.example.com`, path
`/v1/items`, token `Bearer abc`. -/
theorem C6_url_concat_and_auth_header_witness :
    (CallParameters.mk (some "/v1/items")
        (Destination.mk (DestinationConfiguration.mk "https://api.example.com")
          (some [AuthToken.mk "Bearer" "abc"]))
        "GET" none).destination.authTokens = some [AuthToken.mk "Bearer" "abc"] ∧
    (buildDestinationRequest (CallParameters.mk (some "/v1/items")
        (Destination.mk (DestinationConfiguration.mk "https://api.example.com")
          (some [AuthToken.mk "Bearer" "abc"]))
        "GET" none)).url = "https://api.example.com/v1/items" ∧
    (buildDestinationRequest (CallParameters.mk (some "/v1/items")
        (Destination.mk (DestinationConfiguration.mk "https://api.example.com")
          (some [AuthToken.mk "Bearer" "abc"]))
        "GET" none)).headers = some [("Authorization", "Bearer abc")] ∧
    (buildDestinationRequest (CallParameters.mk (some "/tokenless")
        (Destination.mk (DestinationConfiguration.mk "https://plain.example.com")
          none)
        "GET" none)).url = "https://plain.example.com/tokenless" := by
  have h := C6_url_concat_and_auth_header
    (CallParameters.mk (some "/v1/items")
      (Destination.mk (DestinationConfiguration.mk "https://api.example.com")
        (some [AuthToken.mk "Bearer" "abc"]))
      "GET" none)
  have h' := C6_url_concat_and_auth_header
    (CallParameters.mk (some "/tokenless")
      (Destination.mk (DestinationConfiguration.mk "https://plain.example.com")
        none)
      "GET" none)
  exact ⟨rfl, h.1, h.2.2 (AuthToken.mk "Bearer" "abc") [] rfl, h'.1⟩

/-- C7: the token step posts to `{credentials.url}/oauth/token` with
Basic auth over base64 of `clientid:clientsecret` (decoding the encoding
recovers exactly those credential bytes), the form-urlencoded content
type, and the form fields `client_id` and `grant_type`. -/
theorem C7_token_request_shape (env : Env) (sDestinationInstance : String) :
    (buildTokenRequest env sDestinationInstance).url =
      (env sDestinationInstance).url ++ "/oauth/token" ∧
    (buildTokenRequest env sDestinationInstance).method = "POST" ∧
    (buildTokenRequest env sDestinationInstance).authorizationHeader =
      "Basic " ++ base64 ((env sDestinationInstance).clientid ++ ":"
        ++ (env sDestinationInstance).clientsecret) ∧
    base64DecodeChars (base64EncodeBytes (strBytes
        ((env sDestinationInstance).clientid ++ ":"
          ++ (env sDestinationInstance).clientsecret))) =
      some (strBytes ((env sDestinationInstance).clientid ++ ":"
        ++ (env sDestinationInstance).clientsecret)) ∧
    (buildTokenRequest env sDestinationInstance).contentTypeHeader =
      "application/x-www-form-urlencoded" ∧
    (buildTokenRequest env sDestinationInstance).formClientId =
      (env sDestinationInstance).clientid ∧
    (buildTokenRequest env sDestinationInstance).formGrantType =
      "client_credentials" :=
  ⟨rfl, rfl, rfl, base64_decode_encode _ (strBytes_lt _), rfl, rfl, rfl⟩

/-- C8: the destination fetch re-resolves the binding from the
environment inside the step, issues a GET against
`{credentials.uri}/destination-configuration/v1/destinations/{name}`
with `Authorization: Bearer {token}`, and a 200 response resolves with
the JSON-parsed body. -/
theorem C8_destination_fetch_shape
    (env : Env) (sDestinationInstance sToken sDestinationName : String)
    (response : HttpResponse) (data : String) (parsed : Json)
    (h200 : response.statusCode = 200)
    (hparse : jsonParse data = some parsed) :
    (buildDestinationFetchRequest env sDestinationInstance sToken
        sDestinationName).url =
      (env sDestinationInstance).uri
        ++ "/destination-configuration/v1/destinations/" ++ sDestinationName ∧
    (buildDestinationFetchRequest env sDestinationInstance sToken
        sDestinationName).method = "GET" ∧
    (buildDestinationFetchRequest env sDestinationInstance sToken
        sDestinationName).authorizationHeader = "Bearer " ++ sToken ∧
    getDestinationCallback (.success response data) = .resolved parsed := by
  refine ⟨rfl, rfl, rfl, ?_⟩
  simp [getDestinationCallback, h200, hparse]

/-- C8 witness: a concrete 200 destination body resolves parsed. -/
theorem C8_destination_fetch_shape_witness :
    (HttpResponse.mk 200).statusCode = 200 ∧
    jsonParse "\x7b\"destinationConfiguration\":\x7b\"URL\":\"https://api\"\x7d\x7d" =
      some (Json.obj [("destinationConfiguration",
        Json.obj [("URL", Json.str "https://api")])]) ∧
    (buildDestinationFetchRequest (fun _ => Credentials.mk "u" "https://dst" "c" "s")
        "inst" "tok" "name").url =
      "https://dst/destination-configuration/v1/destinations/name" ∧
    getDestinationCallback (.success (HttpResponse.mk 200)
        "\x7b\"destinationConfiguration\":\x7b\"URL\":\"https://api\"\x7d\x7d") =
      .resolved (Json.obj [("destinationConfiguration",
        Json.obj [("URL", Json.str "https://api")])]) := by
  have h := C8_destination_fetch_shape (fun _ => Credentials.mk "u" "https://dst" "c" "s")
    "inst" "tok" "name" (HttpResponse.mk 200)
    "\x7b\"destinationConfiguration\":\x7b\"URL\":\"https://api\"\x7d\x7d"
    (Json.obj [("destinationConfiguration",
      Json.obj [("URL", Json.str "https://api")])]) rfl rfl
  exact ⟨rfl, rfl, h.1, h.2.2.2⟩

/-- C9: outside POST/PUT/PATCH (GET in particular), a supplied payload is
not attached: the request options carry no payload field. -/
theorem C9_no_payload_outside_post_put_patch
    (oParameters : CallParameters)
    (h : oParameters.httpMethod ≠ "POST" ∧ oParameters.httpMethod ≠ "PUT" ∧
      oParameters.httpMethod ≠ "PATCH") :
    (buildDestinationRequest oParameters).payload = none := by
  have hm : isPostPutPatch oParameters.httpMethod = false := by
    rcases h with ⟨h1, h2, h3⟩
    simp [isPostPutPatch, httpMethodsEnum.POST, httpMethodsEnum.PUT,
      httpMethodsEnum.PATCH, h1, h2, h3]
  simp [buildDestinationRequest, hm]

/-- C9 witness: a GET with a payload supplied issues a request without
one. -/
theorem C9_no_payload_outside_post_put_patch_witness :
    (("GET" : String) ≠ "POST" ∧ ("GET" : String) ≠ "PUT" ∧
      ("GET" : String) ≠ "PATCH") ∧
    (buildDestinationRequest (CallParameters.mk none
        (Destination.mk (DestinationConfiguration.mk "https://api") none)
        "GET" (some (Payload.mk "body")))).payload = none :=
  ⟨by decide, C9_no_payload_outside_post_put_patch _ (by decide)⟩

/-- C10: a 200 token or destination response whose body is not valid JSON
makes the unguarded `JSON.parse` in the transport callback throw; the
exception is uncaught there, so the step's promise never settles. -/
theorem C10_bad_json_never_settles
    (response : HttpResponse) (data : String)
    (h200 : response.statusCode = 200)
    (hbad : jsonParse data = none) :
    getTokenCallback (.success response data) = .pending ∧
    getDestinationCallback (.success response data) = .pending := by
  constructor <;> simp [getTokenCallback, getDestinationCallback, h200, hbad]

/-- C10 witness: a 200 response with body `not json` leaves both steps
pending. -/
theorem C10_bad_json_never_settles_witness :
    (HttpResponse.mk 200).statusCode = 200 ∧
    jsonParse "not json" = none ∧
    getTokenCallback (.success (HttpResponse.mk 200) "not json") = .pending ∧
    getDestinationCallback (.success (HttpResponse.mk 200) "not json") = .pending := by
  have h := C10_bad_json_never_settles (HttpResponse.mk 200) "not json" rfl rfl
  exact ⟨rfl, rfl, h.1, h.2⟩

end ConsumeDestination
